import Mathlib

/-!
Verification of the quote-rendering service
(`04-core-code/services/quote-generator-service.js`).

The JavaScript source is shallowly embedded below.  JavaScript numbers are
modelled as exact fractions (`JQ`); the values exercised by the claims are
small decimal amounts on which IEEE doubles and exact rationals agree after
`toFixed(2)`.  Optional / absent ("undefined") numeric fields are modelled
as `Option` values; absent text fields are modelled as the empty string
(the code only ever tests their truthiness, and an absent string and the
empty string are both falsy).  Braces inside string literals are written
with the escapes \x7b and \x7d.
-/

set_option maxRecDepth 16000

namespace QuoteGen

/-! ### JavaScript numbers, modelled as exact fractions

`JQ` is an unnormalised fraction `num / den`.  All operations used by the
service (add, sub, mul, div, compare, `toFixed`) are value-level, so the
lack of normalisation is unobservable in the embedded code. -/

structure JQ where
  num : Int
  den : Nat
deriving DecidableEq

instance : OfNat JQ n := ⟨⟨(n : Int), 1⟩⟩

instance : OfScientific JQ :=
  ⟨fun m b e => if b then ⟨(m : Int), (10 ^ e : Nat)⟩ else ⟨(m : Int) * (10 ^ e : Int), 1⟩⟩

instance : Add JQ := ⟨fun a b => ⟨a.num * (b.den : Int) + b.num * (a.den : Int), a.den * b.den⟩⟩

instance : Mul JQ := ⟨fun a b => ⟨a.num * b.num, a.den * b.den⟩⟩

instance : Sub JQ := ⟨fun a b => ⟨a.num * (b.den : Int) - b.num * (a.den : Int), a.den * b.den⟩⟩

instance : Neg JQ := ⟨fun a => ⟨-a.num, a.den⟩⟩

/-- Reciprocal.  Division by zero never occurs in the embedded code
(the only divisor is the constant 1.1). -/
def JQ.inv (a : JQ) : JQ :=
  if a.num < 0 then ⟨-(a.den : Int), (-a.num).toNat⟩ else ⟨(a.den : Int), a.num.toNat⟩

instance : Div JQ := ⟨fun a b => a * b.inv⟩

/-- Value-level strict comparison by cross multiplication. -/
def JQ.blt (a b : JQ) : Bool := a.num * (b.den : Int) < b.num * (a.den : Int)

/-- Value-level test for zero. -/
def JQ.isZero (a : JQ) : Bool := a.num = 0

/-- Conversion from a count (JavaScript freely mixes counts into prices). -/
def JQ.ofNat (n : Nat) : JQ := ⟨(n : Int), 1⟩

/-- Conversion from an integer quantity. -/
def JQ.ofInt (n : Int) : JQ := ⟨n, 1⟩

/-! ### Small string and JS-coercion helpers -/

/-- Decimal rendering of a natural number, as JavaScript string interpolation
does for a nonnegative integer-valued number. -/
def natStr (n : Nat) : String := Nat.repr n

/-- Decimal rendering of an integer. -/
def intStr (n : Int) : String := Int.repr n

/-- Two-digit zero-padded rendering of `m < 100`. -/
def twoDigitPad (m : Nat) : String :=
  if m < 10 then "0" ++ Nat.repr m else Nat.repr m

/-- `toFixed(2)` for a nonnegative value: round half-up to cents. -/
def toFixed2Nn (q : JQ) : String :=
  let cents : Int := Int.fdiv (q.num * 200 + (q.den : Int)) (2 * (q.den : Int))
  let m : Nat := cents.toNat
  Nat.repr (m / 100) ++ "." ++ twoDigitPad (m % 100)

/-- JavaScript's `Number.prototype.toFixed(2)` on the exact-fraction model. -/
def toFixed2 (q : JQ) : String :=
  if q.num < 0 then "-" ++ toFixed2Nn (-q) else toFixed2Nn q

/-- JavaScript `v || d` for an optional number `v` (absent, `NaN`-parse and
`0` are all falsy). -/
def jsOrQ (v : Option JQ) (d : JQ) : JQ :=
  match v with
  | some q => if q.isZero then d else q
  | none => d

/-- JavaScript `v || d` for an optional count. -/
def jsOrNat (v : Option Nat) (d : Nat) : Nat :=
  match v with
  | some n => if n = 0 then d else n
  | none => d

/-- JavaScript `v > 0` for an optional number (`undefined > 0` is false). -/
def jsGtZero (v : Option JQ) : Bool :=
  match v with
  | some q => JQ.blt 0 q
  | none => false

/-- JavaScript truthiness of an optional count. -/
def jsTruthyNat (v : Option Nat) : Bool :=
  match v with
  | some n => n != 0
  | none => false

/-- JavaScript `s || d` for strings (absent fields are modelled as ""). -/
def jsOrStr (s d : String) : String := if s = "" then d else s

/-- Source line 120: `(price) => (typeof price === 'number' && price > 0)
? `$(price.toFixed(2))` : ''` — `none` models an undefined / non-number
argument. -/
def formatPrice (price : Option JQ) : String :=
  match price with
  | some q => if JQ.blt 0 q then "$" ++ toFixed2 q else ""
  | none => ""

/-- Substring occurrence helper for `String.prototype.includes`. -/
def strContainsAux (pat : List Char) : List Char → Bool
  | [] => pat.isEmpty
  | c :: cs => pat.isPrefixOf (c :: cs) || strContainsAux pat cs

/-- `s.includes(pat)`. -/
def strContains (s pat : String) : Bool := strContainsAux pat.data s.data

/-- `s.toLowerCase()` (ASCII, which is all the code compares). -/
def toLowerStr (s : String) : String := String.mk (s.data.map Char.toLower)

/-- Character expansion for `replace(/\n/g, '<br>')`. -/
def nlToBrL : List Char → List Char
  | [] => []
  | c :: cs => (if c = '\n' then ['<', 'b', 'r', '>'] else [c]) ++ nlToBrL cs

/-- `s.replace(/\n/g, '<br>')`. -/
def nlToBr (s : String) : String := String.mk (nlToBrL s.data)

/-- `s.trim()`; the strings trimmed by the source only carry plain spaces. -/
def strTrim (s : String) : String :=
  String.mk (((s.data.dropWhile (· = ' ')).reverse.dropWhile (· = ' ')).reverse)

/-! ### Data model -/

/-- One roller-blind order item (`quoteData.products.rollerBlind.items[i]`). -/
structure Item where
  width : Option Nat
  height : Option Nat
  fabric : String
  fabricType : String
  color : String
  location : String
  winder : String
  dual : String
  motor : Bool
  linePrice : Option JQ
deriving DecidableEq

structure RollerBlind where
  items : List Item
deriving DecidableEq

structure Products where
  rollerBlind : RollerBlind
deriving DecidableEq

structure QuoteData where
  products : Products
deriving DecidableEq

structure F1State where
  remote_1ch_qty : Option Nat
deriving DecidableEq

structure F2State where
  deliveryFeeExcluded : Bool
  installFeeExcluded : Bool
  removalFeeExcluded : Bool
  deliveryQty : Option Nat
  removalQty : Option Nat
deriving DecidableEq

structure UiState where
  f1 : F1State
  f2 : F2State
  driveRemoteCount : Option Nat
  driveChargerCount : Option Nat
  driveCordCount : Option Nat
deriving DecidableEq

/-- The summary object produced by the external calculation service. -/
structure SummaryData where
  sumPrice : Option JQ
  gst : Option JQ
  firstRbPrice : Option JQ
  disRbPrice : Option JQ
  mulTimes : Option JQ
  acceSum : Option JQ
  eAcceSum : Option JQ
  deliveryFee : Option JQ
  installFee : Option JQ
  removalFee : Option JQ
deriving DecidableEq

/-- Customer / job metadata (`f3Data`).  `finalOfferPrice` holds the result
of `parseFloat`: `none` models an absent field or a `NaN` parse. -/
structure F3Data where
  quoteId : String
  issueDate : String
  dueDate : String
  customerName : String
  customerAddress : String
  customerPhone : String
  customerEmail : String
  generalNotes : String
  termsConditions : String
  finalOfferPrice : Option JQ
deriving DecidableEq

structure ConfigManager where
  getAccessoryPrice : String → Option JQ

structure CalculationService where
  calculateF2Summary : QuoteData → UiState → SummaryData
  configManager : ConfigManager

structure QuoteGeneratorService where
  calculationService : CalculationService
  quoteTemplate : String
  detailsTemplate : String

/-! ### Placeholder substitution (source lines 177-181)

`template.replace(/\x7b\x7b\x7b?([\w\-]+)\x7d\x7d\x7d?/g, ...)` is compiled
to an explicit left-to-right scanner.  `tryTok` decides whether the regex
matches at the current position, with the regex's backtracking resolved
statically: the optional third opening brace is taken exactly when it is
followed by a word character (otherwise neither alternative can match), the
greedy word run never backtracks (word characters and braces are disjoint),
and the optional third closing brace is taken whenever present. -/

/-- `[\w\-]` for an ASCII subject. -/
def isWordChar (c : Char) : Bool := c.isAlphanum || c = '_' || c = '-'

/-- Greedy `[\w\-]*` span. -/
def takeRun : List Char → List Char × List Char
  | [] => ([], [])
  | c :: cs =>
    if isWordChar c then
      let p := takeRun cs
      (c :: p.1, p.2)
    else ([], c :: cs)

/-- Greedy optional third closing brace. -/
def tryTokClose : List Char → Bool × List Char
  | '\x7d' :: r => (true, r)
  | r => (false, r)

/-- The optional third opening brace is consumed exactly when a word
character follows it (otherwise neither regex alternative matches there). -/
def tokOpenBrace (cs2 : List Char) : Bool × List Char :=
  match cs2 with
  | '\x7b' :: c :: t => if isWordChar c then (true, c :: t) else (false, cs2)
  | _ => (false, cs2)

/-- After the two mandatory opening braces: returns
(third opening brace taken, key run, third closing brace taken, rest).
The key run is greedy and must be nonempty, then two closing braces are
mandatory and a third is consumed when present. -/
def tryTokCore (cs2 : List Char) : Option (Bool × List Char × Bool × List Char) :=
  if (takeRun (tokOpenBrace cs2).2).1.isEmpty then none
  else
    match (takeRun (tokOpenBrace cs2).2).2 with
    | '\x7d' :: '\x7d' :: rest2 =>
      some ((tokOpenBrace cs2).1, (takeRun (tokOpenBrace cs2).2).1,
            (tryTokClose rest2).1, (tryTokClose rest2).2)
    | _ => none

/-- The full text matched by the token regex. -/
def tokMatchText (o3 : Bool) (run : List Char) (c3 : Bool) : List Char :=
  '\x7b' :: '\x7b' ::
    ((if o3 then ['\x7b'] else []) ++ run ++ '\x7d' :: '\x7d' :: (if c3 then ['\x7d'] else []))

/-- Try the token regex at the head of the input; on success returns
(matched text, captured key, remaining input). -/
def tryTok : List Char → Option (List Char × String × List Char)
  | '\x7b' :: '\x7b' :: cs2 =>
    (match tryTokCore cs2 with
     | none => none
     | some (o3, run, c3, rest) => some (tokMatchText o3 run c3, String.mk run, rest))
  | _ => none

/-- Fuel-indexed global-replace scan (fuel strictly exceeds the number of
steps whenever it is at least the input length, since every step consumes
at least one character). -/
def substScanF (data : List (String × String)) : Nat → List Char → List Char
  | 0, cs => cs
  | _ + 1, [] => []
  | fuel + 1, c :: cs =>
    match tryTok (c :: cs) with
    | some (m, k, rest) =>
      (match List.lookup k data with
       | some v => v.data
       | none => m) ++ substScanF data fuel rest
    | none => c :: substScanF data fuel cs

/-- The scan at its canonical fuel (the input length). -/
def substScan (data : List (String × String)) (cs : List Char) : List Char :=
  substScanF data cs.length cs

/-- Source `_populateTemplate`: replace tokens whose key the mapping owns,
pass unknown tokens through unchanged. -/
def populateTemplate (template : String) (data : List (String × String)) : String :=
  String.mk (substScan data template.data)

/-! ### The style/body extraction patterns (source lines 88-89) and
first-occurrence string replacement -/

/-- Case-insensitive literal match at the head. -/
def matchesAtCI (pat : List Char) : List Char → Bool
  | s =>
    match pat, s with
    | [], _ => true
    | _ :: _, [] => false
    | p :: ps, c :: cs => (c.toLower == p.toLower) && matchesAtCI ps cs

/-- All positions at which `pat` occurs case-insensitively. -/
def occurrencesCI (pat : String) (cs : List Char) : List Nat :=
  (List.range (cs.length + 1)).filter (fun i => matchesAtCI pat.data (cs.drop i))

/-- First position `≥ start` holding character `c`. -/
def findCharFrom (cs : List Char) (start : Nat) (c : Char) : Option Nat :=
  ((List.range cs.length).filter (fun i => decide (start ≤ i) && (cs.getD i ' ' == c))).head?

/-- The slice `[a, b)`. -/
def sliceL (cs : List Char) (a b : Nat) : List Char := (cs.drop a).take (b - a)

/-- `populated.match(/<style>([\s\S]*)<\/style>/i)`, returning the FULL match
(`styleMatch[0]`): the greedy body runs from the first opening literal to the
last closing literal after it; if the first opening literal has no closing
literal after it, no later start can have one either, so the match fails. -/
def styleMatchFull (s : String) : Option String :=
  let cs := s.data
  match (occurrencesCI "<style>" cs).head? with
  | none => none
  | some i =>
    match ((occurrencesCI "</style>" cs).filter (fun p => i + 7 ≤ p)).getLast? with
    | none => none
    | some p => some (String.mk (sliceL cs i (p + 8)))

/-- `populated.match(/<body[^>]*>([\s\S]*)<\/body>/i)`, returning capture
group 1: the open tag runs from the first `<body` to the first following
`>`, the greedy body to the last `</body>` after it. -/
def bodyMatchGroup (s : String) : Option String :=
  let cs := s.data
  match (occurrencesCI "<body" cs).head? with
  | none => none
  | some i =>
    match findCharFrom cs (i + 5) '>' with
    | none => none
    | some e =>
      match ((occurrencesCI "</body>" cs).filter (fun p => e + 1 ≤ p)).getLast? with
      | none => none
      | some p => some (String.mk (sliceL cs (e + 1) p))

/-- JavaScript `String.prototype.replace` with a string pattern: replace the
first occurrence only.  (The `$`-escape processing of the replacement string
is not modelled; no claim depends on it.) -/
def replaceFirstL (pat rep : List Char) : List Char → List Char
  | [] => if pat.isEmpty then rep else []
  | c :: cs =>
    if pat.isPrefixOf (c :: cs) then rep ++ List.drop pat.length (c :: cs)
    else c :: replaceFirstL pat rep cs

/-- First-occurrence replacement on strings. -/
def replaceFirstStr (s pat rep : String) : String :=
  String.mk (replaceFirstL pat.data rep.data s.data)

/-! ### Per-item detail table (`_generateItemsTableHtml`, lines 191-255) -/

/-- Truthiness of `item.width && item.height` (line 195 and line 260). -/
def itemHasDims (i : Item) : Bool := jsTruthyNat i.width && jsTruthyNat i.height

/-- The items surviving the width/height filter, in order. -/
def detailFilteredItems (items : List Item) : List Item := items.filter itemHasDims

/-- Background class priority (lines 198-205). -/
def fabricClass (item : Item) : String :=
  if item.fabric != "" && strContains (toLowerStr item.fabric) "light-filter" then
    "bg-light-filter"
  else if item.fabricType = "SN" then "bg-screen"
  else if (["B1", "B2", "B3", "B4", "B5"] : List String).contains item.fabricType then
    "bg-blockout"
  else ""

/-- The `cell` arrow function (lines 209-213): empty content earns the
`is-empty-cell` marker, the class string is trimmed. -/
def detailCell (dataLabel content cssClass : String) : String :=
  let finalClass := strTrim (cssClass ++ " " ++ (if content = "" then "is-empty-cell" else ""))
  "<td data-label=\"" ++ dataLabel ++ "\" class=\"" ++ finalClass ++ "\">" ++ content ++ "</td>"

/-- One `<tr>` of the detail table (lines 197-226); `idx` is the 0-based
position in the filtered list. -/
def detailRowHtml (idx : Nat) (item : Item) (mulTimes : JQ) : String :=
  let finalPrice := jsOrQ item.linePrice 0 * mulTimes
  "<tr>" ++ String.join
    [detailCell "#" (natStr (idx + 1)) "text-center",
     detailCell "F-NAME" item.fabric (fabricClass item),
     detailCell "F-COLOR" item.color (fabricClass item),
     detailCell "Location" item.location "",
     detailCell "HD" (if item.winder = "HD" then "✔" else "") "text-center",
     detailCell "Dual" (if item.dual = "D" then "✔" else "") "text-center",
     detailCell "Motor" (if item.motor then "✔" else "") "text-center",
     detailCell "Price" ("$" ++ toFixed2 finalPrice) "text-right"] ++ "</tr>"

def detailHeaders : List String :=
  ["#", "F-NAME", "F-COLOR", "Location", "HD", "Dual", "Motor", "Price"]

/-- Source `_generateItemsTableHtml`. -/
def itemsTableHtml (items : List Item) (summaryData : SummaryData) : String :=
  let mulTimes := jsOrQ summaryData.mulTimes 1
  let rows := String.join
    ((detailFilteredItems items).enum.map (fun p => detailRowHtml p.1 p.2 mulTimes))
  "\n            <table class=\"detailed-list-table\">\n                <colgroup>\n                    <col style=\"width: 5%;\">\n                    <col style=\"width: 20%;\">\n                    <col style=\"width: 15%;\">\n                    <col style=\"width: 12%;\">\n                    <col style=\"width: 9%;\">\n                    <col style=\"width: 9%;\">\n                    <col style=\"width: 9%;\">\n                    <col style=\"width: 13%;\">\n                </colgroup>\n                <thead>\n                    <tr class=\"table-title\">\n                        <th colspan=\""
    ++ natStr detailHeaders.length
    ++ "\">Roller Blinds - Detailed List</th>\n                    </tr>\n                    <tr>\n                        "
    ++ String.join (detailHeaders.map (fun h => "<th>" ++ h ++ "</th>"))
    ++ "\n                    </tr>\n                </thead>\n                <tbody>\n                    "
    ++ rows
    ++ "\n                </tbody>\n            </table>\n        "

/-! ### Page-one summary table (`_generatePageOneItemsTableHtml`,
lines 257-342)

The accessory and fee rows are embedded as structured cell data
(`P1Row`) plus a renderer that reproduces the source's template literal
byte for byte; the accessory rows of the source sit one indentation level
deeper than the fee rows, recorded in `deepIndent`.  `priceText` and
`discText` carry the `$`-prefixed amount of the two price columns;
`priceClass` and `discClass` carry the value of the `class` attribute of
the respective cell. -/

structure P1Row where
  no : Nat
  desc : String
  qty : String
  priceClass : String
  priceText : String
  discClass : String
  discText : String
  deepIndent : Bool
deriving DecidableEq

def renderP1Row (r : P1Row) : String :=
  let ind := if r.deepIndent then "    " else ""
  "\n" ++ ind ++ "            <tr>" ++
  "\n" ++ ind ++ "                <td data-label=\"NO\">" ++ natStr r.no ++ "</td>" ++
  "\n" ++ ind ++ "                <td data-label=\"Description\" class=\"description\">" ++
    r.desc ++ "</td>" ++
  "\n" ++ ind ++ "                <td data-label=\"QTY\" class=\"align-right\">" ++
    r.qty ++ "</td>" ++
  "\n" ++ ind ++ "                <td data-label=\"Price\" class=\"" ++ r.priceClass ++ "\">" ++
    r.priceText ++ "</td>" ++
  "\n" ++ ind ++ "                <td data-label=\"Discounted Price\" class=\"" ++
    r.discClass ++ "\">" ++ r.discText ++ "</td>" ++
  "\n" ++ ind ++ "            </tr>" ++
  "\n" ++ ind ++ "        "

/-- The fixed first row (lines 262-274). -/
def rbRowHtml (summaryData : SummaryData) (validCount : Nat) : String :=
  "\n            <tr>\n                <td data-label=\"NO\">1</td>\n                <td data-label=\"Description\" class=\"description\">Roller Blinds</td>\n                <td data-label=\"QTY\" class=\"align-right\">"
  ++ natStr validCount
  ++ "</td>\n                <td data-label=\"Price\" class=\"align-right\">\n                    <span class=\"original-price\">$"
  ++ toFixed2 (jsOrQ summaryData.firstRbPrice 0)
  ++ "</span>\n                </td>\n                <td data-label=\"Discounted Price\" class=\"align-right\">\n                    <span class=\"discounted-price\">$"
  ++ toFixed2 (jsOrQ summaryData.disRbPrice 0)
  ++ "</span>\n                </td>\n            </tr>\n        "

/-- Lines 278-288: conditional "Installation Accessories" row. -/
def accRowStruct (summaryData : SummaryData) (no : Nat) : P1Row :=
  { no := no, desc := "Installation Accessories", qty := "NA",
    priceClass := "align-right",
    priceText := "$" ++ toFixed2 (jsOrQ summaryData.acceSum 0),
    discClass := "align-right",
    discText := "$" ++ toFixed2 (jsOrQ summaryData.acceSum 0),
    deepIndent := true }

/-- Lines 290-300: conditional "Motorised Accessories" row. -/
def eAccRowStruct (summaryData : SummaryData) (no : Nat) : P1Row :=
  { no := no, desc := "Motorised Accessories", qty := "NA",
    priceClass := "align-right",
    priceText := "$" ++ toFixed2 (jsOrQ summaryData.eAcceSum 0),
    discClass := "align-right",
    discText := "$" ++ toFixed2 (jsOrQ summaryData.eAcceSum 0),
    deepIndent := true }

/-- The `class` attribute value of the nominal price cell of a fee row
(lines 303, 316, 329): the exclusion marker sits HERE, on the nominal
price cell. -/
def feePriceClassVal (excluded : Bool) : String :=
  if excluded then "align-right is-excluded" else "align-right"

/-- Lines 302-313: the Delivery row. -/
def deliveryRowStruct (summaryData : SummaryData) (ui : UiState) (no : Nat) : P1Row :=
  let excluded := ui.f2.deliveryFeeExcluded
  { no := no, desc := "Delivery",
    qty := natStr (jsOrNat ui.f2.deliveryQty 1),
    priceClass := feePriceClassVal excluded,
    priceText := "$" ++ toFixed2 (jsOrQ summaryData.deliveryFee 0),
    discClass := "align-right",
    discText := "$" ++ toFixed2 (if excluded then 0 else jsOrQ summaryData.deliveryFee 0),
    deepIndent := false }

/-- Lines 315-326: the Installation row (quantity is the valid-item count). -/
def installRowStruct (summaryData : SummaryData) (ui : UiState) (validCount no : Nat) :
    P1Row :=
  let excluded := ui.f2.installFeeExcluded
  { no := no, desc := "Installation",
    qty := natStr validCount,
    priceClass := feePriceClassVal excluded,
    priceText := "$" ++ toFixed2 (jsOrQ summaryData.installFee 0),
    discClass := "align-right",
    discText := "$" ++ toFixed2 (if excluded then 0 else jsOrQ summaryData.installFee 0),
    deepIndent := false }

/-- Lines 328-339: the Removal row. -/
def removalRowStruct (summaryData : SummaryData) (ui : UiState) (no : Nat) : P1Row :=
  let excluded := ui.f2.removalFeeExcluded
  { no := no, desc := "Removal",
    qty := natStr (jsOrNat ui.f2.removalQty 0),
    priceClass := feePriceClassVal excluded,
    priceText := "$" ++ toFixed2 (jsOrQ summaryData.removalFee 0),
    discClass := "align-right",
    discText := "$" ++ toFixed2 (if excluded then 0 else jsOrQ summaryData.removalFee 0),
    deepIndent := false }

/-- `items.filter(i => i.width && i.height).length` (line 260). -/
def validItemCount (items : List Item) : Nat := (detailFilteredItems items).length

/-- The structured accessory and fee rows, with the `itemNumber++` counter
threaded exactly as in the source (starts at 2 after the fixed first row). -/
def pageOneStructRows (summaryData : SummaryData) (ui : UiState) (validCount : Nat) :
    List P1Row :=
  let accPresent := jsGtZero summaryData.acceSum
  let eAccPresent := jsGtZero summaryData.eAcceSum
  let accRows := if accPresent then [accRowStruct summaryData 2] else []
  let eNo := if accPresent then 3 else 2
  let eRows := if eAccPresent then [eAccRowStruct summaryData eNo] else []
  let dNo := eNo + (if eAccPresent then 1 else 0)
  accRows ++ eRows ++
    [deliveryRowStruct summaryData ui dNo,
     installRowStruct summaryData ui validCount (dNo + 1),
     removalRowStruct summaryData ui (dNo + 2)]

/-- Source `_generatePageOneItemsTableHtml` (`rows.join('')`). -/
def pageOneItemsTableHtml (summaryData : SummaryData) (quoteData : QuoteData)
    (ui : UiState) : String :=
  let items := quoteData.products.rollerBlind.items
  let validCount := validItemCount items
  String.join
    (rbRowHtml summaryData validCount ::
      (pageOneStructRows summaryData ui validCount).map renderP1Row)

/-! ### Customer info fragment (`_formatCustomerInfo`, lines 183-189) -/

def formatCustomerInfo (f3Data : F3Data) : String :=
  "<strong>" ++ f3Data.customerName ++ "</strong><br>"
  ++ (if f3Data.customerAddress != "" then nlToBr f3Data.customerAddress ++ "<br>" else "")
  ++ (if f3Data.customerPhone != "" then "Phone: " ++ f3Data.customerPhone ++ "<br>" else "")
  ++ (if f3Data.customerEmail != "" then "Email: " ++ f3Data.customerEmail else "")

/-! ### Template data preparation (`_prepareTemplateData`, lines 116-175) -/

/-- The object literal returned by `_prepareTemplateData`; every field is
already a string as substituted into the templates. -/
structure TemplateData where
  documentTitle : String
  quoteId : String
  issueDate : String
  dueDate : String
  customerInfoHtml : String
  itemsTableBody : String
  subtotal : String
  gst : String
  grandTotal : String
  deposit : String
  balance : String
  savings : String
  generalNotes : String
  termsAndConditions : String
  rollerBlindsTable : String
  motorQty : String
  motorPrice : String
  remote1chQty : String
  remote1chPrice : String
  remote16chQty : String
  remote16chPrice : String
  chargerQty : String
  chargerPrice : String
  cord3mQty : String
  cord3mPrice : String
  eAcceSum : String
deriving DecidableEq

/-- Line 118: `parseFloat(f3Data.finalOfferPrice) || summaryData.gst || 0`. -/
def grandTotalCalc (finalOfferPrice gst : Option JQ) : JQ :=
  jsOrQ finalOfferPrice (jsOrQ gst 0)

def prepareTemplateData (svc : QuoteGeneratorService) (quoteData : QuoteData)
    (ui : UiState) (f3Data : F3Data) : TemplateData :=
  let summaryData := svc.calculationService.calculateF2Summary quoteData ui
  let grandTotal := grandTotalCalc f3Data.finalOfferPrice summaryData.gst
  let items := quoteData.products.rollerBlind.items
  let configManager := svc.calculationService.configManager
  let motorQty := (items.filter (fun item => item.motor)).length
  let motorPrice := jsOrQ (configManager.getAccessoryPrice "motorStandard") 0 * JQ.ofNat motorQty
  let totalRemoteQty := jsOrNat ui.driveRemoteCount 0
  let remote1chQty := ui.f1.remote_1ch_qty
  let remote16chQty : Int :=
    match remote1chQty with
    | none => (totalRemoteQty : Int)
    | some r1 => (totalRemoteQty : Int) - (r1 : Int)
  let remotePricePerUnit := jsOrQ (configManager.getAccessoryPrice "remoteStandard") 0
  let remote1chPrice := remotePricePerUnit * JQ.ofNat (remote1chQty.getD 0)
  let remote16chPrice := remotePricePerUnit * JQ.ofInt remote16chQty
  let chargerQty := jsOrNat ui.driveChargerCount 0
  let chargerPrice := jsOrQ (configManager.getAccessoryPrice "chargerStandard") 0 * JQ.ofNat chargerQty
  let cord3mQty := jsOrNat ui.driveCordCount 0
  let cord3mPrice := jsOrQ (configManager.getAccessoryPrice "cord3m") 0 * JQ.ofNat cord3mQty
  let documentTitleParts :=
    (if f3Data.quoteId != "" then [f3Data.quoteId] else []) ++
    (if f3Data.customerName != "" then [f3Data.customerName] else []) ++
    (if f3Data.customerPhone != "" then [f3Data.customerPhone] else [])
  { documentTitle := String.intercalate " " documentTitleParts,
    quoteId := f3Data.quoteId,
    issueDate := f3Data.issueDate,
    dueDate := f3Data.dueDate,
    customerInfoHtml := formatCustomerInfo f3Data,
    itemsTableBody := pageOneItemsTableHtml summaryData quoteData ui,
    subtotal := "$" ++ toFixed2 (jsOrQ summaryData.sumPrice 0),
    gst := "$" ++ toFixed2 (grandTotal / (1.1 : JQ) * (0.1 : JQ)),
    grandTotal := "$" ++ toFixed2 grandTotal,
    deposit := "$" ++ toFixed2 (grandTotal * (0.5 : JQ)),
    balance := "$" ++ toFixed2 (grandTotal * (0.5 : JQ)),
    savings := "$" ++ toFixed2 (jsOrQ summaryData.firstRbPrice 0 - jsOrQ summaryData.disRbPrice 0),
    generalNotes := nlToBr f3Data.generalNotes,
    termsAndConditions := nlToBr (jsOrStr f3Data.termsConditions "Standard terms and conditions apply."),
    rollerBlindsTable := itemsTableHtml items summaryData,
    motorQty := if motorQty = 0 then "" else natStr motorQty,
    motorPrice := formatPrice (some motorPrice),
    remote1chQty :=
      (match remote1chQty with
       | none => ""
       | some n => if n = 0 then "" else natStr n),
    remote1chPrice := formatPrice (some remote1chPrice),
    remote16chQty := if remote16chQty = 0 then "" else intStr remote16chQty,
    remote16chPrice := formatPrice (some remote16chPrice),
    chargerQty := if chargerQty = 0 then "" else natStr chargerQty,
    chargerPrice := formatPrice (some chargerPrice),
    cord3mQty := if cord3mQty = 0 then "" else natStr cord3mQty,
    cord3mPrice := formatPrice (some cord3mPrice),
    eAcceSum := formatPrice summaryData.eAcceSum }

/-- The key/value mapping the template is populated with, in the order of
the source's object literal. -/
def templateDataAssoc (td : TemplateData) : List (String × String) :=
  [("documentTitle", td.documentTitle),
   ("quoteId", td.quoteId),
   ("issueDate", td.issueDate),
   ("dueDate", td.dueDate),
   ("customerInfoHtml", td.customerInfoHtml),
   ("itemsTableBody", td.itemsTableBody),
   ("subtotal", td.subtotal),
   ("gst", td.gst),
   ("grandTotal", td.grandTotal),
   ("deposit", td.deposit),
   ("balance", td.balance),
   ("savings", td.savings),
   ("generalNotes", td.generalNotes),
   ("termsAndConditions", td.termsAndConditions),
   ("rollerBlindsTable", td.rollerBlindsTable),
   ("motorQty", td.motorQty),
   ("motorPrice", td.motorPrice),
   ("remote1chQty", td.remote1chQty),
   ("remote1chPrice", td.remote1chPrice),
   ("remote16chQty", td.remote16chQty),
   ("remote16chPrice", td.remote16chPrice),
   ("chargerQty", td.chargerQty),
   ("chargerPrice", td.chargerPrice),
   ("cord3mQty", td.cord3mQty),
   ("cord3mPrice", td.cord3mPrice),
   ("eAcceSum", td.eAcceSum)]

/-! ### Top-level rendering (`generateQuoteHtml`, lines 79-114) -/

/-- The action-bar fragment stored in the constructor (lines 16-20). -/
def actionBarHtml : String :=
  "\n    <div id=\"action-bar\">\n        <button id=\"copy-html-btn\">Copy HTML</button>\n        <button id=\"print-btn\">Print / Save PDF</button>\n    </div>"

/-- The script fragment stored in the constructor (lines 22-59). -/
def scriptHtml : String :=
  String.intercalate "\n"
    ["",
     "    <script>",
     "        document.addEventListener('DOMContentLoaded', function() \x7b",
     "            const copyBtn = document.getElementById('copy-html-btn');",
     "            const printBtn = document.getElementById('print-btn');",
     "            const actionBar = document.getElementById('action-bar');",
     "",
     "            if (printBtn) \x7b",
     "                printBtn.addEventListener('click', function() \x7b",
     "                    window.print();",
     "                \x7d);",
     "            \x7d",
     "",
     "            if (copyBtn) \x7b",
     "                copyBtn.addEventListener('click', function() \x7b",
     "                    // 1. Temporarily hide the action bar",
     "                    actionBar.style.display = 'none';",
     "",
     "                    // 2. Get the entire HTML of the page, including doctype",
     "                    const pageHtml = new XMLSerializer().serializeToString(document);",
     "",
     "                    // 3. Copy to clipboard",
     "                    navigator.clipboard.writeText(pageHtml)",
     "                        .then(() => \x7b",
     "                            // 4. Show the action bar again",
     "                            actionBar.style.display = 'flex';",
     "                            alert('HTML copied to clipboard successfully!');",
     "                        \x7d)",
     "                        .catch(err => \x7b",
     "                            // 4. Show the action bar again even if it fails",
     "                            actionBar.style.display = 'flex';",
     "                            console.error('Failed to copy:', err);",
     "                            alert('Failed to copy. Please check console for errors.');",
     "                        \x7d);",
     "                \x7d);",
     "            \x7d",
     "        \x7d);",
     "    </script>"]

/-- Lines 98-113: splice the extracted fragments into the quote template,
populate the placeholders a second time, inject the action bar and script. -/
def assembleFinalHtml (svc : QuoteGeneratorService) (data : List (String × String))
    (detailsStyleContent detailsBodyContent : String) : String :=
  let finalHtml := replaceFirstStr svc.quoteTemplate "</head>"
    (detailsStyleContent ++ "</head>")
  let finalHtml := replaceFirstStr finalHtml "</body>" (detailsBodyContent ++ "</body>")
  let finalHtml := populateTemplate finalHtml data
  let finalHtml := replaceFirstStr finalHtml "<body>" ("<body>" ++ actionBarHtml)
  replaceFirstStr finalHtml "</body>" (scriptHtml ++ "</body>")

/-- Source `generateQuoteHtml`.  `Except.ok none` models the `return null`
of the not-ready path, `Except.error` models the thrown `Error`,
`Except.ok (some html)` a successful render. -/
def generateQuoteHtml (svc : QuoteGeneratorService) (quoteData : QuoteData)
    (ui : UiState) (f3Data : F3Data) : Except String (Option String) :=
  if svc.quoteTemplate = "" ∨ svc.detailsTemplate = "" then Except.ok none
  else
    let templateData := prepareTemplateData svc quoteData ui f3Data
    let data := templateDataAssoc templateData
    let populatedDetailsPageHtml := populateTemplate svc.detailsTemplate data
    let styleMatch := styleMatchFull populatedDetailsPageHtml
    let detailsBodyMatch := bodyMatchGroup populatedDetailsPageHtml
    match detailsBodyMatch with
    | none => Except.error "Could not find body content in the details template."
    | some detailsBodyContent =>
      let detailsStyleContent := match styleMatch with | some m => m | none => ""
      Except.ok (some (assembleFinalHtml svc data detailsStyleContent detailsBodyContent))

/-! ### Spec-side definitions

These definitions follow the words of the specification, to be compared
with the embedded source functions. -/

/-- Spec side of claim C2 (as amended): prefer the manually entered final
offer price when it parses to a nonzero number, otherwise the summary's
total, falling back to 0 when that is zero or absent. -/
def grandTotalSpec (finalOfferPrice gst : Option JQ) : JQ :=
  match finalOfferPrice with
  | some q =>
    if q.isZero then
      (match gst with
       | some g => if g.isZero then 0 else g
       | none => 0)
    else q
  | none =>
    match gst with
    | some g => if g.isZero then 0 else g
    | none => 0

/-- Spec side of claim C5: a template is a sequence of literal segments and
two- or three-brace tokens. -/
inductive Seg where
  | lit (s : String)
  | tok (k : String)
  | tok3 (k : String)
deriving DecidableEq

/-- The concrete text of a segment. -/
def flattenSegChars : Seg → List Char
  | .lit s => s.data
  | .tok k => '\x7b' :: '\x7b' :: (k.data ++ ['\x7d', '\x7d'])
  | .tok3 k => '\x7b' :: '\x7b' :: '\x7b' :: (k.data ++ ['\x7d', '\x7d', '\x7d'])

def flattenSegs : List Seg → List Char
  | [] => []
  | s :: ss => flattenSegChars s ++ flattenSegs ss

/-- The template text denoted by a segment sequence. -/
def flattenTemplate (segs : List Seg) : String := String.mk (flattenSegs segs)

/-- Spec-side substitution: a token is replaced by the mapping's value
exactly when the mapping contains its key, and is otherwise left
character-for-character unchanged. -/
def renderSegSpec (data : List (String × String)) : Seg → List Char
  | .lit s => s.data
  | .tok k =>
    (match List.lookup k data with
     | some v => v.data
     | none => '\x7b' :: '\x7b' :: (k.data ++ ['\x7d', '\x7d']))
  | .tok3 k =>
    (match List.lookup k data with
     | some v => v.data
     | none => '\x7b' :: '\x7b' :: '\x7b' :: (k.data ++ ['\x7d', '\x7d', '\x7d']))

def renderSegsSpec (data : List (String × String)) : List Seg → List Char
  | [] => []
  | s :: ss => renderSegSpec data s ++ renderSegsSpec data ss

def renderTemplateSpec (data : List (String × String)) (segs : List Seg) : String :=
  String.mk (renderSegsSpec data segs)

/-- Well-formedness of a segment sequence: literal segments carry no brace
characters, token keys are nonempty words over `[\w\-]` (the shape the
claim's phrase "token of the form" presupposes). -/
def wfSeg : Seg → Bool
  | .lit s => s.data.all (fun c => c != '\x7b' && c != '\x7d')
  | .tok k => !k.data.isEmpty && k.data.all isWordChar
  | .tok3 k => !k.data.isEmpty && k.data.all isWordChar

def wfSegs (segs : List Seg) : Bool := segs.all wfSeg

/-! ### Concrete inputs used by witnesses and counterexamples -/

def emptySummary : SummaryData :=
  { sumPrice := none, gst := none, firstRbPrice := none, disRbPrice := none,
    mulTimes := none, acceSum := none, eAcceSum := none, deliveryFee := none,
    installFee := none, removalFee := none }

def defaultUi : UiState :=
  { f1 := { remote_1ch_qty := none },
    f2 := { deliveryFeeExcluded := false, installFeeExcluded := false,
            removalFeeExcluded := false, deliveryQty := none, removalQty := none },
    driveRemoteCount := none, driveChargerCount := none, driveCordCount := none }

def emptyF3 : F3Data :=
  { quoteId := "", issueDate := "", dueDate := "", customerName := "",
    customerAddress := "", customerPhone := "", customerEmail := "",
    generalNotes := "", termsConditions := "", finalOfferPrice := none }

def emptyQuote : QuoteData := { products := { rollerBlind := { items := [] } } }

/-- A calculation service producing a fixed summary and no accessory prices. -/
def constCalcService (s : SummaryData) : CalculationService :=
  { calculateF2Summary := fun _ _ => s,
    configManager := { getAccessoryPrice := fun _ => none } }

def svcWith (s : SummaryData) (qt dt : String) : QuoteGeneratorService :=
  { calculationService := constCalcService s, quoteTemplate := qt, detailsTemplate := dt }

/-- C2: a summary whose tax-inclusive total is 100. -/
def summaryGst100 : SummaryData := { emptySummary with gst := some 100 }

def svcC2 : QuoteGeneratorService := svcWith summaryGst100 "q" "d"

/-- C2: metadata whose final offer price is the numeric value 0. -/
def f3Offer0 : F3Data := { emptyF3 with finalOfferPrice := some 0 }

/-- C1: a summary with a delivery fee of 30. -/
def summaryC1 : SummaryData := { emptySummary with deliveryFee := some 30 }

/-- C1: UI flags with the delivery exclusion set. -/
def uiC1 : UiState :=
  { defaultUi with
    f2 := { deliveryFeeExcluded := true, installFeeExcluded := false,
            removalFeeExcluded := false, deliveryQty := none, removalQty := none } }

/-- C8: the end-to-end example item of the spec. -/
def itemC8 : Item :=
  { width := some 100, height := some 100, fabric := "", fabricType := "SN",
    color := "", location := "", winder := "", dual := "", motor := true,
    linePrice := some 50 }

/-- C8: a summary with price multiplier 1.1. -/
def summaryC8 : SummaryData := { emptySummary with mulTimes := some (1.1 : JQ) }

/-- C9: the example summary with acceSum = 0 and eAcceSum = 25. -/
def summaryC9 : SummaryData :=
  { emptySummary with acceSum := some 0, eAcceSum := some 25 }

/-- C4: an item without a width. -/
def itemNoWidth : Item :=
  { width := none, height := some 5, fabric := "f", fabricType := "B1",
    color := "c", location := "l", winder := "HD", dual := "D", motor := false,
    linePrice := some 10 }

/-- C4: a complete item. -/
def itemFull : Item :=
  { width := some 2, height := some 3, fabric := "f", fabricType := "B1",
    color := "c", location := "l", winder := "HD", dual := "D", motor := false,
    linePrice := some 10 }

/-- C6: a service whose quote template is still empty. -/
def svcNotReady : QuoteGeneratorService := svcWith emptySummary "" "<body>x</body>"

/-- C7: a details template without a body region. -/
def svcNoBody : QuoteGeneratorService :=
  svcWith emptySummary "<html><head></head><body></body></html>" "<div>detail</div>"

/-- C7: a details template with a body region but no style block. -/
def svcNoStyle : QuoteGeneratorService :=
  svcWith emptySummary "<html><head></head><body></body></html>" "<body>x</body>"

/-- C5: a small well-formed segment sequence. -/
def segsEx : List Seg :=
  [Seg.lit "a<b>", Seg.tok "x", Seg.lit " c ", Seg.tok3 "y-1", Seg.tok "doesNotExist",
   Seg.lit "end"]

/-- C5: a mapping covering some keys of `segsEx` but not all. -/
def dataEx : List (String × String) := [("x", "VX"), ("y-1", "VY")]

/-- C10: metadata with a phone number but no name, address, or email. -/
def f3PhoneOnly : F3Data := { emptyF3 with customerPhone := "0400 000 000" }

/-- C2 witness input: a nonzero manual final offer price. -/
def f3Offer77 : F3Data := { emptyF3 with finalOfferPrice := some 77 }

/-- What claim C1 is about, for one fee row: where the amount and the
"is-excluded" styling marker sit in the two price cells.  `r.priceClass`
and `r.discClass` are the `class` attribute values of the nominal and
discounted price cells; "carries the marker" means the attribute contains
"is-excluded". -/
def feeRowSpecOk (r : P1Row) (excluded : Bool) (fee : JQ) : Prop :=
  strContains r.discClass "is-excluded" = false ∧
  (excluded = true →
    r.discText = "$0.00" ∧
    r.priceClass = "align-right is-excluded" ∧
    strContains r.priceClass "is-excluded" = true ∧
    r.priceText = "$" ++ toFixed2 fee) ∧
  (excluded = false →
    r.discText = "$" ++ toFixed2 fee ∧
    r.priceClass = "align-right" ∧
    strContains r.priceClass "is-excluded" = false ∧
    r.priceText = "$" ++ toFixed2 fee)

/-! ## Theorems -/

/-- A fee row built with the source's cell recipe satisfies the amended
exclusion contract. -/
theorem feeRowSpecOk_of_fields (excluded : Bool) (fee : JQ) (r : P1Row)
    (hpc : r.priceClass = feePriceClassVal excluded)
    (hpt : r.priceText = "$" ++ toFixed2 fee)
    (hdc : r.discClass = "align-right")
    (hdt : r.discText = "$" ++ toFixed2 (if excluded then 0 else fee)) :
    feeRowSpecOk r excluded fee := by
  refine ⟨by rw [hdc]; decide, ?_, ?_⟩
  · intro h
    rw [h] at hpc hdt
    simp only [if_true] at hdt
    refine ⟨?_, ?_, ?_, hpt⟩
    · rw [hdt]; decide
    · rw [hpc]; decide
    · rw [hpc]; decide
  · intro h
    rw [h] at hpc hdt
    simp only [Bool.false_eq_true, if_false] at hdt
    refine ⟨hdt, ?_, ?_, hpt⟩
    · rw [hpc]; decide
    · rw [hpc]; decide

/-- C1 (corrected): in every rendered page-one table, the Delivery,
Installation and Removal rows put the "is-excluded" marker on the NOMINAL
price cell when the corresponding exclusion flag is set (the discounted
cell never carries it); the discounted-price cell then shows $0.00, and
shows the nominal fee when the flag is clear. -/
theorem pageOne_fee_exclusion (s : SummaryData) (ui : UiState) (vc : Nat) :
    (∀ r ∈ pageOneStructRows s ui vc, r.desc = "Delivery" →
      feeRowSpecOk r ui.f2.deliveryFeeExcluded (jsOrQ s.deliveryFee 0)) ∧
    (∀ r ∈ pageOneStructRows s ui vc, r.desc = "Installation" →
      feeRowSpecOk r ui.f2.installFeeExcluded (jsOrQ s.installFee 0)) ∧
    (∀ r ∈ pageOneStructRows s ui vc, r.desc = "Removal" →
      feeRowSpecOk r ui.f2.removalFeeExcluded (jsOrQ s.removalFee 0)) ∧
    (∃ n, deliveryRowStruct s ui n ∈ pageOneStructRows s ui vc) ∧
    (∃ n, installRowStruct s ui vc n ∈ pageOneStructRows s ui vc) ∧
    (∃ n, removalRowStruct s ui n ∈ pageOneStructRows s ui vc) := by
  refine ⟨?_, ?_, ?_, ?_, ?_, ?_⟩
  · intro r hmem hdesc
    cases hA : jsGtZero s.acceSum <;> cases hE : jsGtZero s.eAcceSum <;>
      simp [pageOneStructRows, hA, hE] at hmem <;>
      (rcases hmem with (rfl | rfl | rfl | rfl | rfl)) <;>
      (first
        | (exact feeRowSpecOk_of_fields _ _ _ rfl rfl rfl rfl)
        | (exact absurd hdesc (by simp [accRowStruct, eAccRowStruct, deliveryRowStruct,
            installRowStruct, removalRowStruct])))
  · intro r hmem hdesc
    cases hA : jsGtZero s.acceSum <;> cases hE : jsGtZero s.eAcceSum <;>
      simp [pageOneStructRows, hA, hE] at hmem <;>
      (rcases hmem with (rfl | rfl | rfl | rfl | rfl)) <;>
      (first
        | (exact feeRowSpecOk_of_fields _ _ _ rfl rfl rfl rfl)
        | (exact absurd hdesc (by simp [accRowStruct, eAccRowStruct, deliveryRowStruct,
            installRowStruct, removalRowStruct])))
  · intro r hmem hdesc
    cases hA : jsGtZero s.acceSum <;> cases hE : jsGtZero s.eAcceSum <;>
      simp [pageOneStructRows, hA, hE] at hmem <;>
      (rcases hmem with (rfl | rfl | rfl | rfl | rfl)) <;>
      (first
        | (exact feeRowSpecOk_of_fields _ _ _ rfl rfl rfl rfl)
        | (exact absurd hdesc (by simp [accRowStruct, eAccRowStruct, deliveryRowStruct,
            installRowStruct, removalRowStruct])))
  · exact ⟨(if jsGtZero s.acceSum then 3 else 2) + (if jsGtZero s.eAcceSum then 1 else 0),
      by simp [pageOneStructRows]⟩
  · exact ⟨(if jsGtZero s.acceSum then 3 else 2) + (if jsGtZero s.eAcceSum then 1 else 0) + 1,
      by simp [pageOneStructRows]⟩
  · exact ⟨(if jsGtZero s.acceSum then 3 else 2) + (if jsGtZero s.eAcceSum then 1 else 0) + 2,
      by simp [pageOneStructRows]⟩

/-- C1 counterexample: with the delivery exclusion flag set and a delivery
fee of 30, the discounted-price cell shows $0.00 but does NOT carry the
"is-excluded" marker — the nominal price cell carries it instead, contrary
to the claim. -/
theorem pageOne_fee_exclusion_claim_ce :
    (deliveryRowStruct summaryC1 uiC1 4).discText = "$0.00" ∧
    strContains ("<td data-label=\"Discounted Price\" class=\"" ++
        (deliveryRowStruct summaryC1 uiC1 4).discClass ++ "\">" ++
        (deliveryRowStruct summaryC1 uiC1 4).discText ++ "</td>") "is-excluded" = false ∧
    strContains ("<td data-label=\"Price\" class=\"" ++
        (deliveryRowStruct summaryC1 uiC1 4).priceClass ++ "\">" ++
        (deliveryRowStruct summaryC1 uiC1 4).priceText ++ "</td>") "is-excluded" = true ∧
    (deliveryRowStruct summaryC1 uiC1 4).priceText = "$30.00" := by
  refine ⟨by decide, by decide, by decide, by decide⟩

/-- C1 witness: the amended theorem applied to the concrete excluded
delivery row. -/
theorem pageOne_fee_exclusion_witness :
    ∃ n, deliveryRowStruct summaryC1 uiC1 n ∈ pageOneStructRows summaryC1 uiC1 0 ∧
      (deliveryRowStruct summaryC1 uiC1 n).discText = "$0.00" ∧
      (deliveryRowStruct summaryC1 uiC1 n).priceClass = "align-right is-excluded" := by
  obtain ⟨hdel, -, -, ⟨n, hmem⟩, -, -⟩ := pageOne_fee_exclusion summaryC1 uiC1 0
  obtain ⟨-, himp, -⟩ := hdel _ hmem rfl
  obtain ⟨h1, h2, -, -⟩ := himp rfl
  exact ⟨n, hmem, h1, h2⟩

/-- C2 (corrected): the grand total used for the grandTotal, GST, deposit
and balance fields equals `metadata.finalOfferPrice` whenever that parses
to a NONZERO number, and otherwise equals the summary's `gst` total,
falling back to 0 when that is zero or absent (a zero final offer price
also falls back, contrary to the original claim). -/
theorem grandTotal_fields (svc : QuoteGeneratorService) (qd : QuoteData)
    (ui : UiState) (f3 : F3Data) :
    let s := svc.calculationService.calculateF2Summary qd ui
    let gt := grandTotalSpec f3.finalOfferPrice s.gst
    let pd := prepareTemplateData svc qd ui f3
    grandTotalCalc f3.finalOfferPrice s.gst = gt ∧
    pd.grandTotal = "$" ++ toFixed2 gt ∧
    pd.gst = "$" ++ toFixed2 (gt / (1.1 : JQ) * (0.1 : JQ)) ∧
    pd.deposit = "$" ++ toFixed2 (gt * (0.5 : JQ)) ∧
    pd.balance = "$" ++ toFixed2 (gt * (0.5 : JQ)) ∧
    (∀ q : JQ, f3.finalOfferPrice = some q → q.isZero = false → gt = q) := by
  intro s gt pd
  have hcalc : grandTotalCalc f3.finalOfferPrice s.gst = gt := by
    show grandTotalCalc f3.finalOfferPrice s.gst = grandTotalSpec f3.finalOfferPrice s.gst
    unfold grandTotalCalc grandTotalSpec jsOrQ
    cases f3.finalOfferPrice <;> cases s.gst <;> rfl
  refine ⟨hcalc, ?_, ?_, ?_, ?_, ?_⟩
  · show "$" ++ toFixed2 (grandTotalCalc f3.finalOfferPrice s.gst) = _
    rw [hcalc]
  · show "$" ++ toFixed2 (grandTotalCalc f3.finalOfferPrice s.gst / (1.1 : JQ) * (0.1 : JQ)) = _
    rw [hcalc]
  · show "$" ++ toFixed2 (grandTotalCalc f3.finalOfferPrice s.gst * (0.5 : JQ)) = _
    rw [hcalc]
  · show "$" ++ toFixed2 (grandTotalCalc f3.finalOfferPrice s.gst * (0.5 : JQ)) = _
    rw [hcalc]
  · intro q hq hz
    show grandTotalSpec f3.finalOfferPrice s.gst = q
    rw [hq]
    simp [grandTotalSpec, hz]

/-- C2 counterexample: a numeric final offer price of 0 is NOT used as the
grand total; the summary total 100 is used instead. -/
theorem grandTotal_claim_ce :
    f3Offer0.finalOfferPrice = some (0 : JQ) ∧
    (prepareTemplateData svcC2 emptyQuote defaultUi f3Offer0).grandTotal = "$100.00" ∧
    ("$100.00" : String) ≠ "$" ++ toFixed2 (0 : JQ) := by
  refine ⟨rfl, by decide, by decide⟩

/-- C2 witness: the amended theorem evaluated at a nonzero final offer
price of 77 against a summary total of 100. -/
theorem grandTotal_fields_witness :
    (prepareTemplateData svcC2 emptyQuote defaultUi f3Offer77).grandTotal
      = "$" ++ toFixed2 (grandTotalSpec f3Offer77.finalOfferPrice
          ((svcC2.calculationService.calculateF2Summary emptyQuote defaultUi).gst)) ∧
    grandTotalSpec f3Offer77.finalOfferPrice
        ((svcC2.calculationService.calculateF2Summary emptyQuote defaultUi).gst)
      = (77 : JQ) := by
  obtain ⟨-, h1, -, -, -, h2⟩ := grandTotal_fields svcC2 emptyQuote defaultUi f3Offer77
  exact ⟨h1, h2 77 rfl (by decide)⟩

/-- C3 (corrected): the currency formatter maps a positive number to the
`$`-prefixed two-decimal rendering, and maps zero, undefined and
non-numeric values to the empty string; the spec's claim that `$X.XX` is
produced for ALL inputs ≥ 0 fails at zero. -/
theorem formatPrice_spec (v : Option JQ) :
    (∀ q : JQ, v = some q → JQ.blt 0 q = true →
      formatPrice v = "$" ++ toFixed2 q ∧
      ∃ intPart fracPart : Nat, fracPart < 100 ∧
        toFixed2 q = Nat.repr intPart ++ "." ++ twoDigitPad fracPart) ∧
    ((v = none ∨ v = some 0) → formatPrice v = "") := by
  refine ⟨?_, ?_⟩
  · rintro q rfl hq
    have hnum : 0 < q.num := by
      have h' := hq
      unfold JQ.blt at h'
      rw [decide_eq_true_eq] at h'
      have h'' : (0 : Int) * (q.den : Int) < q.num * ((1 : Nat) : Int) := h'
      simpa using h''
    refine ⟨by simp [formatPrice, hq], ?_⟩
    have hneg : ¬ q.num < 0 := by omega
    refine ⟨(Int.fdiv (q.num * 200 + (q.den : Int)) (2 * (q.den : Int))).toNat / 100,
            (Int.fdiv (q.num * 200 + (q.den : Int)) (2 * (q.den : Int))).toNat % 100,
            Nat.mod_lt _ (by norm_num), ?_⟩
    simp [toFixed2, hneg, toFixed2Nn]
  · rintro (rfl | rfl)
    · rfl
    · decide

/-- C3 counterexample: the numeric input 0 yields the empty string, not
`$0.00`. -/
theorem formatPrice_claim_ce :
    formatPrice (some (0 : JQ)) = "" ∧ ("" : String) ≠ "$0.00" := by
  refine ⟨by decide, by decide⟩

/-- C3 witness: the amended theorem applied at 25 and at 0. -/
theorem formatPrice_spec_witness :
    formatPrice (some (25 : JQ)) = "$" ++ toFixed2 (25 : JQ) ∧
    formatPrice (some (0 : JQ)) = "" :=
  ⟨((formatPrice_spec (some 25)).1 25 rfl (by decide)).1,
   (formatPrice_spec (some 0)).2 (Or.inr rfl)⟩

/-- C6 (confirmed): with either cached template empty the render call
returns null (modelled `Except.ok none`) and throws nothing. -/
theorem generateQuoteHtml_notReady (svc : QuoteGeneratorService) (qd : QuoteData)
    (ui : UiState) (f3 : F3Data)
    (h : svc.quoteTemplate = "" ∨ svc.detailsTemplate = "") :
    generateQuoteHtml svc qd ui f3 = Except.ok none ∧
    ∀ msg : String, generateQuoteHtml svc qd ui f3 ≠ Except.error msg := by
  have hok : generateQuoteHtml svc qd ui f3 = Except.ok none := by
    unfold generateQuoteHtml
    rw [if_pos h]
  refine ⟨hok, fun msg hc => ?_⟩
  rw [hok] at hc
  exact Except.noConfusion hc

/-- C6 witness: a service with an unfetched (empty) quote template. -/
theorem generateQuoteHtml_notReady_witness :
    generateQuoteHtml svcNotReady emptyQuote defaultUi emptyF3 = Except.ok none :=
  (generateQuoteHtml_notReady svcNotReady emptyQuote defaultUi emptyF3 (Or.inl rfl)).1

/-- C10 (confirmed): the customer info fragment always begins with the
customer name in a `<strong>` element followed by `<br>` (an empty bold
element when the name is absent), while the address, phone and email lines
are omitted entirely when their fields are absent. -/
theorem formatCustomerInfo_spec (f3 : F3Data) :
    (∃ rest, formatCustomerInfo f3 =
      "<strong>" ++ f3.customerName ++ "</strong><br>" ++ rest) ∧
    (f3.customerName = "" →
      ∃ rest, formatCustomerInfo f3 = "<strong></strong><br>" ++ rest) ∧
    (f3.customerAddress = "" → formatCustomerInfo f3 =
      "<strong>" ++ f3.customerName ++ "</strong><br>"
      ++ (if f3.customerPhone != "" then "Phone: " ++ f3.customerPhone ++ "<br>" else "")
      ++ (if f3.customerEmail != "" then "Email: " ++ f3.customerEmail else "")) ∧
    (f3.customerPhone = "" → formatCustomerInfo f3 =
      "<strong>" ++ f3.customerName ++ "</strong><br>"
      ++ (if f3.customerAddress != "" then nlToBr f3.customerAddress ++ "<br>" else "")
      ++ (if f3.customerEmail != "" then "Email: " ++ f3.customerEmail else "")) ∧
    (f3.customerEmail = "" → formatCustomerInfo f3 =
      "<strong>" ++ f3.customerName ++ "</strong><br>"
      ++ (if f3.customerAddress != "" then nlToBr f3.customerAddress ++ "<br>" else "")
      ++ (if f3.customerPhone != "" then "Phone: " ++ f3.customerPhone ++ "<br>" else "")) := by
  have hfold : ("<strong>" : String) ++ "</strong><br>" = "<strong></strong><br>" := by decide
  refine ⟨?_, ?_, ?_, ?_, ?_⟩
  · exact ⟨(if f3.customerAddress != "" then nlToBr f3.customerAddress ++ "<br>" else "")
      ++ (if f3.customerPhone != "" then "Phone: " ++ f3.customerPhone ++ "<br>" else "")
      ++ (if f3.customerEmail != "" then "Email: " ++ f3.customerEmail else ""),
      by simp [formatCustomerInfo, String.append_assoc]⟩
  · intro h
    exact ⟨(if f3.customerAddress != "" then nlToBr f3.customerAddress ++ "<br>" else "")
      ++ (if f3.customerPhone != "" then "Phone: " ++ f3.customerPhone ++ "<br>" else "")
      ++ (if f3.customerEmail != "" then "Email: " ++ f3.customerEmail else ""),
      by simp [formatCustomerInfo, h, hfold, String.append_assoc]⟩
  · intro h
    simp [formatCustomerInfo, h]
  · intro h
    simp [formatCustomerInfo, h]
  · intro h
    simp [formatCustomerInfo, h]

/-- C10 witness: metadata with only a phone number set. -/
theorem formatCustomerInfo_spec_witness :
    (∃ rest, formatCustomerInfo f3PhoneOnly = "<strong></strong><br>" ++ rest) ∧
    formatCustomerInfo f3PhoneOnly =
      "<strong>" ++ f3PhoneOnly.customerName ++ "</strong><br>"
      ++ (if f3PhoneOnly.customerPhone != "" then
            "Phone: " ++ f3PhoneOnly.customerPhone ++ "<br>" else "")
      ++ (if f3PhoneOnly.customerEmail != "" then
            "Email: " ++ f3PhoneOnly.customerEmail else "") :=
  ⟨(formatCustomerInfo_spec f3PhoneOnly).2.1 rfl,
   (formatCustomerInfo_spec f3PhoneOnly).2.2.1 rfl⟩

/-- C9 (confirmed): the page-one table carries the "Installation
Accessories" row exactly when the accessory sum is positive and the
"Motorised Accessories" row exactly when the motorised-accessory sum is
positive, each showing its sum in both price columns; in the example with
acceSum = 0 and eAcceSum = 25 only the Motorised row appears, with $25.00
in both columns. -/
theorem pageOne_accessory_rows (s : SummaryData) (ui : UiState) (vc : Nat) :
    ((∃ r ∈ pageOneStructRows s ui vc, r.desc = "Installation Accessories") ↔
      jsGtZero s.acceSum = true) ∧
    ((∃ r ∈ pageOneStructRows s ui vc, r.desc = "Motorised Accessories") ↔
      jsGtZero s.eAcceSum = true) ∧
    (∀ r ∈ pageOneStructRows s ui vc, r.desc = "Installation Accessories" →
      r.priceText = "$" ++ toFixed2 (jsOrQ s.acceSum 0) ∧
      r.discText = "$" ++ toFixed2 (jsOrQ s.acceSum 0)) ∧
    (∀ r ∈ pageOneStructRows s ui vc, r.desc = "Motorised Accessories" →
      r.priceText = "$" ++ toFixed2 (jsOrQ s.eAcceSum 0) ∧
      r.discText = "$" ++ toFixed2 (jsOrQ s.eAcceSum 0)) ∧
    ((∀ r ∈ pageOneStructRows summaryC9 defaultUi 0, r.desc ≠ "Installation Accessories") ∧
     (∃ r ∈ pageOneStructRows summaryC9 defaultUi 0, r.desc = "Motorised Accessories" ∧
        r.priceText = "$25.00" ∧ r.discText = "$25.00")) := by
  refine ⟨?_, ?_, ?_, ?_, by decide, by decide⟩
  · cases hA : jsGtZero s.acceSum <;> cases hE : jsGtZero s.eAcceSum <;>
      simp [pageOneStructRows, hA, hE, accRowStruct, eAccRowStruct, deliveryRowStruct,
        installRowStruct, removalRowStruct]
  · cases hA : jsGtZero s.acceSum <;> cases hE : jsGtZero s.eAcceSum <;>
      simp [pageOneStructRows, hA, hE, accRowStruct, eAccRowStruct, deliveryRowStruct,
        installRowStruct, removalRowStruct]
  · intro r hmem hdesc
    cases hA : jsGtZero s.acceSum <;> cases hE : jsGtZero s.eAcceSum <;>
      simp [pageOneStructRows, hA, hE] at hmem <;>
      (rcases hmem with (rfl | rfl | rfl | rfl | rfl)) <;>
      (first
        | (exact ⟨rfl, rfl⟩)
        | (exact absurd hdesc (by simp [accRowStruct, eAccRowStruct, deliveryRowStruct,
            installRowStruct, removalRowStruct])))
  · intro r hmem hdesc
    cases hA : jsGtZero s.acceSum <;> cases hE : jsGtZero s.eAcceSum <;>
      simp [pageOneStructRows, hA, hE] at hmem <;>
      (rcases hmem with (rfl | rfl | rfl | rfl | rfl)) <;>
      (first
        | (exact ⟨rfl, rfl⟩)
        | (exact absurd hdesc (by simp [accRowStruct, eAccRowStruct, deliveryRowStruct,
            installRowStruct, removalRowStruct])))

/-- C9 witness: the characterisation applied to the example summary. -/
theorem pageOne_accessory_rows_witness :
    (∃ r ∈ pageOneStructRows summaryC9 defaultUi 0, r.desc = "Motorised Accessories") ∧
    ¬ (∃ r ∈ pageOneStructRows summaryC9 defaultUi 0,
        r.desc = "Installation Accessories") := by
  obtain ⟨hiff1, hiff2, -, -, -, -⟩ := pageOne_accessory_rows summaryC9 defaultUi 0
  refine ⟨hiff2.mpr (by decide), fun hc => ?_⟩
  have := hiff1.mp hc
  exact absurd this (by decide)

/-- Items lacking a dimension fail the truthiness filter. -/
theorem itemHasDims_false_of_lacking (i : Item)
    (hlack : i.width = none ∨ i.height = none) : itemHasDims i = false := by
  rcases hlack with h | h <;> simp [itemHasDims, jsTruthyNat, h]

/-- Width/height truthiness implies presence. -/
theorem isSome_of_jsTruthy (v : Option Nat) (h : jsTruthyNat v = true) :
    v.isSome = true := by
  cases v <;> simp_all [jsTruthyNat]

/-- C4 (confirmed): an item lacking width or height never reaches the
detail-table rows and never counts toward the valid-item count used by the
page-one Roller Blinds and Installation quantities. -/
theorem invalid_items_excluded (items : List Item) (i : Item)
    (_hmem : i ∈ items) (hlack : i.width = none ∨ i.height = none) :
    i ∉ detailFilteredItems items ∧
    detailFilteredItems items =
      detailFilteredItems (items.filter (fun j => j.width.isSome && j.height.isSome)) ∧
    validItemCount items =
      validItemCount (items.filter (fun j => j.width.isSome && j.height.isSome)) ∧
    validItemCount items = (detailFilteredItems items).length ∧
    (∀ s ui, ∃ n, installRowStruct s ui (validItemCount items) n ∈
      pageOneStructRows s ui (validItemCount items)) := by
  have hdim : itemHasDims i = false := itemHasDims_false_of_lacking i hlack
  have hfeq : detailFilteredItems items =
      detailFilteredItems (items.filter (fun j => j.width.isSome && j.height.isSome)) := by
    unfold detailFilteredItems
    rw [List.filter_filter]
    refine List.filter_congr ?_
    intro a _
    cases hd : itemHasDims a with
    | false => simp [hd]
    | true =>
      have ⟨hw, hh⟩ : jsTruthyNat a.width = true ∧ jsTruthyNat a.height = true := by
        simpa [itemHasDims] using hd
      simp [hd, isSome_of_jsTruthy _ hw, isSome_of_jsTruthy _ hh]
  refine ⟨?_, hfeq, ?_, rfl, ?_⟩
  · intro hin
    have := List.of_mem_filter hin
    rw [hdim] at this
    exact Bool.noConfusion this
  · unfold validItemCount
    rw [hfeq]
  · intro s ui
    exact ⟨(if jsGtZero s.acceSum then 3 else 2) + (if jsGtZero s.eAcceSum then 1 else 0) + 1,
      by simp [pageOneStructRows]⟩

/-- C4 witness: a two-item list with one item lacking its width. -/
theorem invalid_items_excluded_witness :
    itemNoWidth ∉ detailFilteredItems [itemNoWidth, itemFull] ∧
    validItemCount [itemNoWidth, itemFull] = 1 := by
  obtain ⟨h1, -, -, -, -⟩ :=
    invalid_items_excluded [itemNoWidth, itemFull] itemNoWidth (by decide) (Or.inl rfl)
  exact ⟨h1, by decide⟩

/-- C7 (confirmed): with both templates loaded, a populated details page
without a body region makes the render call throw (no output at all), while
a body region without a style block renders successfully with an empty
style fragment. -/
theorem generateQuoteHtml_body_style (svc : QuoteGeneratorService) (qd : QuoteData)
    (ui : UiState) (f3 : F3Data)
    (hq : svc.quoteTemplate ≠ "") (hd : svc.detailsTemplate ≠ "") :
    (bodyMatchGroup (populateTemplate svc.detailsTemplate
        (templateDataAssoc (prepareTemplateData svc qd ui f3))) = none →
      generateQuoteHtml svc qd ui f3 =
        Except.error "Could not find body content in the details template.") ∧
    (∀ b, bodyMatchGroup (populateTemplate svc.detailsTemplate
        (templateDataAssoc (prepareTemplateData svc qd ui f3))) = some b →
      styleMatchFull (populateTemplate svc.detailsTemplate
        (templateDataAssoc (prepareTemplateData svc qd ui f3))) = none →
      generateQuoteHtml svc qd ui f3 = Except.ok (some (assembleFinalHtml svc
        (templateDataAssoc (prepareTemplateData svc qd ui f3)) "" b))) := by
  have hcond : ¬ (svc.quoteTemplate = "" ∨ svc.detailsTemplate = "") := by
    rintro (h | h)
    · exact hq h
    · exact hd h
  constructor
  · intro hb
    unfold generateQuoteHtml
    rw [if_neg hcond]
    simp only [hb]
  · intro b hb hs
    unfold generateQuoteHtml
    rw [if_neg hcond]
    simp only [hb, hs]

/-- C7 witness: a template without a body region throws; one with a body
but no style block succeeds with the empty style fragment. -/
theorem generateQuoteHtml_body_style_witness :
    generateQuoteHtml svcNoBody emptyQuote defaultUi emptyF3 =
      Except.error "Could not find body content in the details template." ∧
    generateQuoteHtml svcNoStyle emptyQuote defaultUi emptyF3 =
      Except.ok (some (assembleFinalHtml svcNoStyle
        (templateDataAssoc (prepareTemplateData svcNoStyle emptyQuote defaultUi emptyF3))
        "" "x")) := by
  constructor
  · exact (generateQuoteHtml_body_style svcNoBody emptyQuote defaultUi emptyF3
      (by decide) (by decide)).1 (by decide)
  · exact (generateQuoteHtml_body_style svcNoStyle emptyQuote defaultUi emptyF3
      (by decide) (by decide)).2 "x" (by decide) (by decide)

/-- C8 (confirmed): the end-to-end example item (width 100, height 100,
fabric type SN, motorised, line price 50) under multiplier 1.1 renders a
$55.00 price cell, screen-background fabric and colour cells, and a
checkmark in the Motor column; in general the background class is chosen
by priority: light-filter substring, else SN, else blockout set, else
none. -/
theorem detail_example_and_fabric_priority :
    (strContains (itemsTableHtml [itemC8] summaryC8)
        "<td data-label=\"Price\" class=\"text-right\">$55.00</td>" = true ∧
     strContains (itemsTableHtml [itemC8] summaryC8)
        "<td data-label=\"F-NAME\" class=\"bg-screen is-empty-cell\">" = true ∧
     strContains (itemsTableHtml [itemC8] summaryC8)
        "<td data-label=\"F-COLOR\" class=\"bg-screen is-empty-cell\">" = true ∧
     strContains (itemsTableHtml [itemC8] summaryC8)
        "<td data-label=\"Motor\" class=\"text-center\">✔</td>" = true ∧
     fabricClass itemC8 = "bg-screen") ∧
    (∀ item : Item,
      (fabricClass item = "bg-light-filter" ↔
        (item.fabric != "" && strContains (toLowerStr item.fabric) "light-filter") = true) ∧
      (fabricClass item = "bg-screen" ↔
        ((item.fabric != "" && strContains (toLowerStr item.fabric) "light-filter") = false ∧
         item.fabricType = "SN")) ∧
      (fabricClass item = "bg-blockout" ↔
        ((item.fabric != "" && strContains (toLowerStr item.fabric) "light-filter") = false ∧
         item.fabricType ≠ "SN" ∧
         (["B1", "B2", "B3", "B4", "B5"] : List String).contains item.fabricType = true)) ∧
      (fabricClass item = "" ↔
        ((item.fabric != "" && strContains (toLowerStr item.fabric) "light-filter") = false ∧
         item.fabricType ≠ "SN" ∧
         (["B1", "B2", "B3", "B4", "B5"] : List String).contains item.fabricType = false))) := by
  constructor
  · exact ⟨by decide, by decide, by decide, by decide, by decide⟩
  · intro item
    unfold fabricClass
    split_ifs with h1 h2 h3 <;>
      refine ⟨?_, ?_, ?_, ?_⟩ <;>
      simp_all

/-! ### The C5 refinement chain: the scanner agrees with the spec-side
segment substitution on well-formed templates. -/

theorem stringMk_data (s : String) : String.mk s.data = s := by
  cases s
  rfl

theorem takeRun_eq_append (l : List Char) : (takeRun l).1 ++ (takeRun l).2 = l := by
  induction l with
  | nil => rfl
  | cons c cs ih =>
    unfold takeRun
    by_cases h : isWordChar c = true
    · simpa [h] using ih
    · simp [h]

theorem takeRun_all_word (ks : List Char) (hw : ∀ c ∈ ks, isWordChar c = true)
    (d : Char) (hd : isWordChar d = false) (rest : List Char) :
    takeRun (ks ++ d :: rest) = (ks, d :: rest) := by
  induction ks with
  | nil => simp [takeRun, hd]
  | cons k ks ih =>
    have hk : isWordChar k = true := hw k (by simp)
    have ih' := ih (fun c hc => hw c (by simp [hc]))
    simp [takeRun, hk, ih']

theorem tryTokClose_of_head (r : List Char) (h : r.head? ≠ some '\x7d') :
    tryTokClose r = (false, r) := by
  cases r with
  | nil => rfl
  | cons c cs =>
    have hc : c ≠ '\x7d' := by
      intro hh
      exact h (by rw [hh]; rfl)
    rw [tryTokClose.eq_def]
    split <;> simp_all

theorem tryTok_not_brace (c : Char) (cs : List Char) (h : c ≠ '\x7b') :
    tryTok (c :: cs) = none := by
  rw [tryTok.eq_def]
  split <;> simp_all

theorem tokOpenBrace_snd_le (cs2 : List Char) :
    (tokOpenBrace cs2).2.length ≤ cs2.length := by
  rw [tokOpenBrace.eq_def]
  split
  · split <;> simp_all
  · simp

theorem tryTokClose_snd_le (r : List Char) : (tryTokClose r).2.length ≤ r.length := by
  rw [tryTokClose.eq_def]
  split <;> simp_all

theorem tryTokCore_rest_le (cs2 : List Char) (o3 : Bool) (run : List Char) (c3 : Bool)
    (rest : List Char) (h : tryTokCore cs2 = some (o3, run, c3, rest)) :
    rest.length ≤ cs2.length := by
  have hob := tokOpenBrace_snd_le cs2
  have htr := takeRun_eq_append (tokOpenBrace cs2).2
  unfold tryTokCore at h
  split at h
  · exact Option.noConfusion h
  · split at h
    · rename_i rest2 heq
      simp only [Option.some.injEq, Prod.mk.injEq] at h
      obtain ⟨-, -, -, h4⟩ := h
      have hcl := tryTokClose_snd_le rest2
      rw [heq] at htr
      have hlen : (takeRun (tokOpenBrace cs2).2).1.length + (rest2.length + 2)
          = (tokOpenBrace cs2).2.length := by
        simpa [List.length_append] using congrArg List.length htr
      rw [← h4]
      omega
    · exact Option.noConfusion h

theorem tryTok_rest_le (c : Char) (cs : List Char) (m : List Char) (k : String)
    (rest : List Char) (h : tryTok (c :: cs) = some (m, k, rest)) :
    rest.length ≤ cs.length := by
  rw [tryTok.eq_def] at h
  split at h
  · rename_i cs2 heq
    cases hcore : tryTokCore cs2 with
    | none => rw [hcore] at h; exact Option.noConfusion h
    | some t =>
      obtain ⟨o3, run, c3, rest'⟩ := t
      rw [hcore] at h
      simp only [Option.some.injEq, Prod.mk.injEq] at h
      obtain ⟨-, -, h4⟩ := h
      have hle := tryTokCore_rest_le cs2 o3 run c3 rest' hcore
      have hlen : cs.length = cs2.length + 1 := by
        have h5 := congrArg List.length heq
        simpa using h5
      rw [← h4]
      omega
  · exact Option.noConfusion h

theorem substScanF_congr (data : List (String × String)) :
    ∀ (n : Nat) (cs : List Char), cs.length ≤ n →
      ∀ f1 f2, cs.length ≤ f1 → cs.length ≤ f2 →
        substScanF data f1 cs = substScanF data f2 cs := by
  intro n
  induction n with
  | zero =>
    intro cs h f1 f2 _ _
    have : cs = [] := List.eq_nil_of_length_eq_zero (Nat.le_zero.mp h)
    subst this
    cases f1 <;> cases f2 <;> rfl
  | succ n ih =>
    intro cs h f1 f2 h1 h2
    cases cs with
    | nil => cases f1 <;> cases f2 <;> rfl
    | cons c cs' =>
      cases f1 with
      | zero => simp at h1
      | succ g1 =>
        cases f2 with
        | zero => simp at h2
        | succ g2 =>
          cases htk : tryTok (c :: cs') with
          | none =>
            simp only [substScanF, htk]
            have hlen : cs'.length ≤ n := by simpa using Nat.le_of_succ_le_succ h
            exact congrArg (c :: ·) (ih cs' hlen g1 g2 (by simpa using h1) (by simpa using h2))
          | some t =>
            obtain ⟨m, k, rest⟩ := t
            have hrl : rest.length ≤ cs'.length := tryTok_rest_le c cs' m k rest htk
            simp only [substScanF, htk]
            have hlen : cs'.length ≤ n := by simpa using Nat.le_of_succ_le_succ h
            have := ih rest (by omega) g1 g2 (by simp at h1; omega) (by simp at h2; omega)
            rw [this]

theorem substScanF_eq_substScan (data : List (String × String)) (fuel : Nat)
    (cs : List Char) (h : cs.length ≤ fuel) :
    substScanF data fuel cs = substScan data cs :=
  substScanF_congr data cs.length cs le_rfl fuel cs.length h le_rfl

theorem substScan_lit (data : List (String × String)) (l rest : List Char)
    (hl : ∀ c ∈ l, c ≠ '\x7b') :
    substScan data (l ++ rest) = l ++ substScan data rest := by
  induction l with
  | nil => simp
  | cons c l' ih =>
    have hc : c ≠ '\x7b' := hl c (by simp)
    have ih' := ih (fun x hx => hl x (by simp [hx]))
    show substScanF data ((c :: l' ++ rest).length) (c :: l' ++ rest) = _
    simp only [List.cons_append, List.length_cons]
    simp only [substScanF, tryTok_not_brace c _ hc]
    rw [show substScanF data (l' ++ rest).length (l' ++ rest) = substScan data (l' ++ rest)
      from rfl, ih']

theorem tokOpenBrace_no_brace (k0 : Char) (t : List Char) (h : k0 ≠ '\x7b') :
    tokOpenBrace (k0 :: t) = (false, k0 :: t) := by
  rw [tokOpenBrace.eq_def]
  split <;> simp_all

theorem tryTok_tok (k rest : List Char) (hk : k ≠ [])
    (hw : ∀ c ∈ k, isWordChar c = true) (hr : rest.head? ≠ some '\x7d') :
    tryTok ('\x7b' :: '\x7b' :: (k ++ '\x7d' :: '\x7d' :: rest)) =
      some ('\x7b' :: '\x7b' :: (k ++ ['\x7d', '\x7d']), String.mk k, rest) := by
  cases k with
  | nil => exact absurd rfl hk
  | cons k0 k' =>
    have h0 : isWordChar k0 = true := hw k0 (by simp)
    have h0' : k0 ≠ '\x7b' := by
      intro hh
      rw [hh] at h0
      exact absurd h0 (by decide)
    have hob : tokOpenBrace (k0 :: (k' ++ '\x7d' :: '\x7d' :: rest))
        = (false, k0 :: (k' ++ '\x7d' :: '\x7d' :: rest)) :=
      tokOpenBrace_no_brace k0 (k' ++ '\x7d' :: '\x7d' :: rest) h0'
    have hrun : takeRun (k0 :: (k' ++ '\x7d' :: '\x7d' :: rest))
        = (k0 :: k', '\x7d' :: '\x7d' :: rest) := by
      simpa using takeRun_all_word (k0 :: k') hw '\x7d' (by decide) ('\x7d' :: rest)
    have hcl : tryTokClose rest = (false, rest) := tryTokClose_of_head rest hr
    have hcore : tryTokCore (k0 :: (k' ++ '\x7d' :: '\x7d' :: rest))
        = some (false, k0 :: k', false, rest) := by
      unfold tryTokCore
      rw [hob]
      simp only []
      rw [hrun]
      simp [hcl]
    simp [tryTok, hcore, tokMatchText]

theorem substScan_tok (data : List (String × String)) (k rest : List Char) (hk : k ≠ [])
    (hw : ∀ c ∈ k, isWordChar c = true) (hr : rest.head? ≠ some '\x7d') :
    substScan data ('\x7b' :: '\x7b' :: (k ++ '\x7d' :: '\x7d' :: rest)) =
      (match List.lookup (String.mk k) data with
       | some v => v.data
       | none => '\x7b' :: '\x7b' :: (k ++ ['\x7d', '\x7d'])) ++ substScan data rest := by
  have htok := tryTok_tok k rest hk hw hr
  show substScanF data (('\x7b' :: '\x7b' :: (k ++ '\x7d' :: '\x7d' :: rest)).length) _ = _
  simp only [List.length_cons]
  simp only [substScanF, htok]
  rw [substScanF_eq_substScan data _ rest (by simp [List.length_append]; omega)]

theorem tryTok_tok3 (k rest : List Char) (hk : k ≠ [])
    (hw : ∀ c ∈ k, isWordChar c = true) :
    tryTok ('\x7b' :: '\x7b' :: '\x7b' :: (k ++ '\x7d' :: '\x7d' :: '\x7d' :: rest)) =
      some ('\x7b' :: '\x7b' :: '\x7b' :: (k ++ ['\x7d', '\x7d', '\x7d']), String.mk k, rest) := by
  cases k with
  | nil => exact absurd rfl hk
  | cons k0 k' =>
    have h0 : isWordChar k0 = true := hw k0 (by simp)
    have hob : tokOpenBrace ('\x7b' :: k0 :: (k' ++ '\x7d' :: '\x7d' :: '\x7d' :: rest))
        = (true, k0 :: (k' ++ '\x7d' :: '\x7d' :: '\x7d' :: rest)) := by
      rw [tokOpenBrace.eq_def]
      split <;> simp_all
    have hrun : takeRun (k0 :: (k' ++ '\x7d' :: '\x7d' :: '\x7d' :: rest))
        = (k0 :: k', '\x7d' :: '\x7d' :: '\x7d' :: rest) := by
      simpa using takeRun_all_word (k0 :: k') hw '\x7d' (by decide) ('\x7d' :: '\x7d' :: rest)
    have hcore : tryTokCore ('\x7b' :: k0 :: (k' ++ '\x7d' :: '\x7d' :: '\x7d' :: rest))
        = some (true, k0 :: k', true, rest) := by
      unfold tryTokCore
      rw [hob]
      simp only []
      rw [hrun]
      simp [tryTokClose]
    simp [tryTok, hcore, tokMatchText]

theorem substScan_tok3 (data : List (String × String)) (k rest : List Char) (hk : k ≠ [])
    (hw : ∀ c ∈ k, isWordChar c = true) :
    substScan data ('\x7b' :: '\x7b' :: '\x7b' :: (k ++ '\x7d' :: '\x7d' :: '\x7d' :: rest)) =
      (match List.lookup (String.mk k) data with
       | some v => v.data
       | none => '\x7b' :: '\x7b' :: '\x7b' :: (k ++ ['\x7d', '\x7d', '\x7d'])) ++
        substScan data rest := by
  have htok := tryTok_tok3 k rest hk hw
  show substScanF data
    (('\x7b' :: '\x7b' :: '\x7b' :: (k ++ '\x7d' :: '\x7d' :: '\x7d' :: rest)).length) _ = _
  simp only [List.length_cons]
  simp only [substScanF, htok]
  rw [substScanF_eq_substScan data _ rest (by simp [List.length_append]; omega)]

theorem andE {a b : Bool} (h : (a && b) = true) : a = true ∧ b = true := by
  cases a <;> cases b <;> simp_all

theorem wfSegs_cons (s : Seg) (ss : List Seg) (h : wfSegs (s :: ss) = true) :
    wfSeg s = true ∧ wfSegs ss = true := by
  have h' : (wfSeg s && List.all ss wfSeg) = true := by
    simpa [wfSegs, List.all_cons] using h
  exact andE h'

theorem flattenSegs_head_ne (ss : List Seg) (h : wfSegs ss = true) :
    (flattenSegs ss).head? ≠ some '\x7d' := by
  induction ss with
  | nil => simp [flattenSegs]
  | cons s ss ih =>
    obtain ⟨hs, hss⟩ := wfSegs_cons s ss h
    cases s with
    | lit str =>
      cases hstr : str.data with
      | nil => simpa [flattenSegs, flattenSegChars, hstr] using ih hss
      | cons c cs =>
        simp only [wfSeg] at hs
        rw [hstr, List.all_cons] at hs
        obtain ⟨hc, -⟩ := andE hs
        have hc' : c ≠ '\x7d' := by
          simpa using (andE hc).2
        simp [flattenSegs, flattenSegChars, hstr, hc']
    | tok k => simp [flattenSegs, flattenSegChars]
    | tok3 k => simp [flattenSegs, flattenSegChars]

theorem substScan_flatten (data : List (String × String)) (segs : List Seg)
    (h : wfSegs segs = true) :
    substScan data (flattenSegs segs) = renderSegsSpec data segs := by
  induction segs with
  | nil => rfl
  | cons s ss ih =>
    obtain ⟨hs, hss⟩ := wfSegs_cons s ss h
    have ih' := ih hss
    have hr : (flattenSegs ss).head? ≠ some '\x7d' := flattenSegs_head_ne ss hss
    cases s with
    | lit str =>
      have hl : ∀ c ∈ str.data, c ≠ '\x7b' := by
        intro c hc
        simp only [wfSeg] at hs
        have hall := List.all_eq_true.mp hs c hc
        simpa using (andE hall).1
      show substScan data (str.data ++ flattenSegs ss) = str.data ++ renderSegsSpec data ss
      rw [substScan_lit data _ _ hl, ih']
    | tok k =>
      have hk : k.data ≠ [] := by
        simp only [wfSeg] at hs
        obtain ⟨h1, -⟩ := andE hs
        intro hnil
        rw [hnil] at h1
        simp at h1
      have hw : ∀ c ∈ k.data, isWordChar c = true := by
        simp only [wfSeg] at hs
        exact List.all_eq_true.mp (andE hs).2
      show substScan data
        (('\x7b' :: '\x7b' :: (k.data ++ ['\x7d', '\x7d'])) ++ flattenSegs ss) = _
      rw [show ('\x7b' :: '\x7b' :: (k.data ++ ['\x7d', '\x7d'])) ++ flattenSegs ss
          = '\x7b' :: '\x7b' :: (k.data ++ '\x7d' :: '\x7d' :: flattenSegs ss) by simp]
      rw [substScan_tok data k.data (flattenSegs ss) hk hw hr, ih', stringMk_data]
      rfl
    | tok3 k =>
      have hk : k.data ≠ [] := by
        simp only [wfSeg] at hs
        obtain ⟨h1, -⟩ := andE hs
        intro hnil
        rw [hnil] at h1
        simp at h1
      have hw : ∀ c ∈ k.data, isWordChar c = true := by
        simp only [wfSeg] at hs
        exact List.all_eq_true.mp (andE hs).2
      show substScan data
        (('\x7b' :: '\x7b' :: '\x7b' :: (k.data ++ ['\x7d', '\x7d', '\x7d'])) ++
          flattenSegs ss) = _
      rw [show ('\x7b' :: '\x7b' :: '\x7b' :: (k.data ++ ['\x7d', '\x7d', '\x7d'])) ++
          flattenSegs ss
          = '\x7b' :: '\x7b' :: '\x7b' ::
              (k.data ++ '\x7d' :: '\x7d' :: '\x7d' :: flattenSegs ss) by simp]
      rw [substScan_tok3 data k.data (flattenSegs ss) hk hw, ih', stringMk_data]
      rfl

/-- C5 (confirmed): on every well-formed template (literal text free of
braces interleaved with `⦃⦃key⦄⦄` / `⦃⦃⦃key⦄⦄⦄` tokens over word
characters) and every data mapping, the substitution replaces each token
with the mapping's value exactly when the mapping contains the key and
leaves the token character-for-character unchanged otherwise; being a total
function, it never errors on unknown tokens. -/
theorem populateTemplate_spec (segs : List Seg) (data : List (String × String))
    (h : wfSegs segs = true) :
    populateTemplate (flattenTemplate segs) data = renderTemplateSpec data segs :=
  congrArg String.mk (substScan_flatten data segs h)

/-- C5 witness: a template with a known two-brace token, a known
three-brace token and an unknown token. -/
theorem populateTemplate_spec_witness :
    wfSegs segsEx = true ∧
    populateTemplate (flattenTemplate segsEx) dataEx = renderTemplateSpec dataEx segsEx ∧
    renderTemplateSpec dataEx segsEx = "a<b>VX c VY\x7b\x7bdoesNotExist\x7d\x7dend" :=
  ⟨by decide, populateTemplate_spec segsEx dataEx (by decide), by decide⟩

end QuoteGen
